import Mathlib

/-!
Shallow embedding of the httptimeout library: a deadline-enforcing wrapper
over stream connections, the listener that produces such wrapped
connections on accept, and the factories building listeners and an HTTP
client transport.  The repository holds two near-identical packages
(`timeout` and `httptimeout`); both variants of each factory are embedded,
in namespaces of the same names.

Underlying network primitives (the wrapped net.Conn and net.Listener, the
dialer, net.Listen and the certificate loader) are modelled as behaviour
oracles inside `NetConn`, `NetListener` and `NetEnv`.  Every operation
additionally returns the list of calls it performs on the underlying
primitives (`NetEvent` / `SysEvent`), so that properties such as "the
underlying read is not invoked" or "no socket is bound" are statable.
-/

abbrev Duration := Int

abbrev Time := Int

abbrev Addr := String

abbrev Bytes := List Nat

/-- An abstract error value (Go's `error` interface, non-nil case). -/
structure Err where
  msg : String
deriving DecidableEq, Repr

/-- Calls observable on an underlying net.Conn. -/
inductive NetEvent where
  | setReadDeadline (t : Time)
  | setWriteDeadline (t : Time)
  | read (b : Bytes)
  | write (b : Bytes)
  | close
  | localAddr
  | remoteAddr
deriving DecidableEq, Repr

/-- Calls observable on the ambient network environment. -/
inductive SysEvent where
  | dial (network addr : String) (timeout : Duration)
  | listen (network addr : String)
  | load (certFile keyFile : String)
deriving DecidableEq, Repr

/-- Model of an underlying net.Conn: its deadline state together with
behaviour oracles fixing the outcome of each interface call. -/
structure NetConn where
  readDeadline : Time
  writeDeadline : Time
  setReadDeadlineErr : Time → Option Err
  setWriteDeadlineErr : Time → Option Err
  readRes : Bytes → Nat × Option Err
  writeRes : Bytes → Nat × Option Err
  closeRes : Option Err
  localAddrRes : Addr
  remoteAddrRes : Addr

/-- net.Conn.SetReadDeadline: on success records the new deadline. -/
def NetConn.SetReadDeadline (nc : NetConn) (t : Time) :
    Option Err × NetConn × List NetEvent :=
  match nc.setReadDeadlineErr t with
  | some e => (some e, nc, [NetEvent.setReadDeadline t])
  | none => (none, { nc with readDeadline := t }, [NetEvent.setReadDeadline t])

/-- net.Conn.SetWriteDeadline: on success records the new deadline. -/
def NetConn.SetWriteDeadline (nc : NetConn) (t : Time) :
    Option Err × NetConn × List NetEvent :=
  match nc.setWriteDeadlineErr t with
  | some e => (some e, nc, [NetEvent.setWriteDeadline t])
  | none => (none, { nc with writeDeadline := t }, [NetEvent.setWriteDeadline t])

/-- net.Conn.Read, with its outcome given by the oracle. -/
def NetConn.Read (nc : NetConn) (b : Bytes) :
    (Nat × Option Err) × NetConn × List NetEvent :=
  (nc.readRes b, nc, [NetEvent.read b])

/-- net.Conn.Write, with its outcome given by the oracle. -/
def NetConn.Write (nc : NetConn) (b : Bytes) :
    (Nat × Option Err) × NetConn × List NetEvent :=
  (nc.writeRes b, nc, [NetEvent.write b])

/-- net.Conn.Close. -/
def NetConn.Close (nc : NetConn) : Option Err × NetConn × List NetEvent :=
  (nc.closeRes, nc, [NetEvent.close])

/-- net.Conn.LocalAddr. -/
def NetConn.LocalAddr (nc : NetConn) : Addr × List NetEvent :=
  (nc.localAddrRes, [NetEvent.localAddr])

/-- net.Conn.RemoteAddr. -/
def NetConn.RemoteAddr (nc : NetConn) : Addr × List NetEvent :=
  (nc.remoteAddrRes, [NetEvent.remoteAddr])

/-- The deadline-enforcing connection wrapper (struct Conn of timeout.go and
part_000; both packages define it identically).  It embeds the underlying
net.Conn and the two timeout fields. -/
structure Conn where
  conn : NetConn
  ReadTimeout : Duration
  WriteTimeout : Duration

/-- Conn.Read of the source: sets the read deadline to now+ReadTimeout on
the underlying connection; on failure returns (0, err) without reading,
otherwise delegates to the underlying Read. -/
def Conn.Read (c : Conn) (now : Time) (b : Bytes) :
    (Nat × Option Err) × Conn × List NetEvent :=
  match NetConn.SetReadDeadline c.conn (now + c.ReadTimeout) with
  | (some e, nc1, ev1) => ((0, some e), { c with conn := nc1 }, ev1)
  | (none, nc1, ev1) =>
    match NetConn.Read nc1 b with
    | (r, nc2, ev2) => (r, { c with conn := nc2 }, ev1 ++ ev2)

/-- Conn.Write of the source: symmetric to Conn.Read, using WriteTimeout
and the write deadline. -/
def Conn.Write (c : Conn) (now : Time) (b : Bytes) :
    (Nat × Option Err) × Conn × List NetEvent :=
  match NetConn.SetWriteDeadline c.conn (now + c.WriteTimeout) with
  | (some e, nc1, ev1) => ((0, some e), { c with conn := nc1 }, ev1)
  | (none, nc1, ev1) =>
    match NetConn.Write nc1 b with
    | (r, nc2, ev2) => (r, { c with conn := nc2 }, ev1 ++ ev2)

/-- Promoted method: Close delegates to the embedded net.Conn. -/
def Conn.Close (c : Conn) : Option Err × Conn × List NetEvent :=
  match NetConn.Close c.conn with
  | (e, nc, ev) => (e, { c with conn := nc }, ev)

/-- Promoted method: LocalAddr delegates to the embedded net.Conn. -/
def Conn.LocalAddr (c : Conn) : Addr × List NetEvent :=
  NetConn.LocalAddr c.conn

/-- Promoted method: RemoteAddr delegates to the embedded net.Conn. -/
def Conn.RemoteAddr (c : Conn) : Addr × List NetEvent :=
  NetConn.RemoteAddr c.conn

/-- Model of an underlying net.Listener: the outcome of the n-th Accept
call is fixed by the oracle `acceptFn`, and `acceptCount` tracks how many
accepts happened so far. -/
structure NetListener where
  acceptFn : Nat → Except Err NetConn
  acceptCount : Nat
  closeRes : Option Err
  addrRes : Addr

/-- net.Listener.Accept: yields the next oracle outcome. -/
def NetListener.Accept (nl : NetListener) : Except Err NetConn × NetListener :=
  (nl.acceptFn nl.acceptCount, { nl with acceptCount := nl.acceptCount + 1 })

/-- The wrapping Listener (struct Listener of the source), generic in the
type of the embedded listener so that plain and TLS-wrapped underlying
listeners can both be stored, as Go's net.Listener interface allows. -/
structure Listener (L : Type) where
  listener : L
  ReadTimeout : Duration
  WriteTimeout : Duration

/-- Listener.Accept of the source: calls the underlying Accept; on error
propagates it and produces no connection; on success wraps the accepted
connection in a Conn carrying the listener's timeouts. -/
def Listener.Accept (l : Listener NetListener) :
    Except Err Conn × Listener NetListener :=
  match NetListener.Accept l.listener with
  | (Except.error e, nl) => (Except.error e, { l with listener := nl })
  | (Except.ok c, nl) =>
    (Except.ok (Conn.mk c l.ReadTimeout l.WriteTimeout), { l with listener := nl })

/-- A TLS certificate, abstract. -/
structure Cert where
  id : Nat
deriving DecidableEq, Repr

/-- Model of tls.Config: only the fields the source touches.  `NextProtos`
is `none` for Go's nil slice. -/
structure TLSConfig where
  NextProtos : Option (List String)
  Certificates : List Cert
deriving DecidableEq, Repr

/-- Result of tls.NewListener: the underlying listener paired with the
local tls.Config value it was given. -/
structure TLSListener where
  inner : NetListener
  config : TLSConfig

/-- tls.NewListener: pure wrapping of a listener with a config. -/
def tlsNewListener (nl : NetListener) (config : TLSConfig) : TLSListener :=
  TLSListener.mk nl config

/-- The ambient network environment: oracles for net.DialTimeout,
net.Listen and tls.LoadX509KeyPair. -/
structure NetEnv where
  dialTimeout : String → String → Duration → Except Err NetConn
  listen : String → String → Except Err NetListener
  loadX509KeyPair : String → String → Except Err Cert

/-- http.Transport, reduced to the one field the source sets: the dial
function (network, addr) installed on it, instrumented with the system
events the dial performs. -/
structure Transport where
  Dial : String → String → Except Err Conn × List SysEvent

namespace timeout

/-- NewTransport of timeout.go: a single timeout bounds the connect and is
installed as both ReadTimeout and WriteTimeout of the wrapped connection.
The `addr` argument of the constructor is shadowed by the dial function's
own parameter, exactly as in the source. -/
def NewTransport (env : NetEnv) (addr : String) (timeout : Duration) : Transport :=
  Transport.mk (fun network addr =>
    match env.dialTimeout network addr timeout with
    | Except.error e => (Except.error e, [SysEvent.dial network addr timeout])
    | Except.ok conn =>
      (Except.ok (Conn.mk conn timeout timeout), [SysEvent.dial network addr timeout]))

/-- NewListener of timeout.go: binds via net.Listen on the fixed "tcp"
network and wraps the bound listener with the two timeouts. -/
def NewListener (env : NetEnv) (addr : String) (readTimeout writeTimeout : Duration) :
    Except Err (Listener NetListener) × List SysEvent :=
  match env.listen "tcp" addr with
  | Except.error e => (Except.error e, [SysEvent.listen "tcp" addr])
  | Except.ok conn =>
    (Except.ok (Listener.mk conn readTimeout writeTimeout), [SysEvent.listen "tcp" addr])

/-- NewListenerTLS of timeout.go: fills NextProtos of a fresh local config,
loads the certificate pair (returning its error before any bind), then
binds on "tcp", wraps with tls.NewListener and then with Listener. -/
def NewListenerTLS (env : NetEnv) (addr certFile keyFile : String)
    (readTimeout writeTimeout : Duration) :
    Except Err (Listener TLSListener) × List SysEvent :=
  let config : TLSConfig := TLSConfig.mk none []
  let config := if config.NextProtos = none
    then { config with NextProtos := some ["http/1.1"] } else config
  match env.loadX509KeyPair certFile keyFile with
  | Except.error e => (Except.error e, [SysEvent.load certFile keyFile])
  | Except.ok cert =>
    let config := { config with Certificates := [cert] }
    match env.listen "tcp" addr with
    | Except.error e =>
      (Except.error e, [SysEvent.load certFile keyFile, SysEvent.listen "tcp" addr])
    | Except.ok conn =>
      (Except.ok (Listener.mk (tlsNewListener conn config) readTimeout writeTimeout),
       [SysEvent.load certFile keyFile, SysEvent.listen "tcp" addr])

end timeout

namespace httptimeout

/-- NewTransport of part_000: independent read and write timeouts; the
connect is bounded by readTimeout, and the wrapped connection receives
readTimeout for reads and writeTimeout for writes.  The `addr` argument of
the constructor is shadowed by the dial function's own parameter, exactly
as in the source. -/
def NewTransport (env : NetEnv) (addr : String)
    (readTimeout writeTimeout : Duration) : Transport :=
  Transport.mk (fun network addr =>
    match env.dialTimeout network addr readTimeout with
    | Except.error e => (Except.error e, [SysEvent.dial network addr readTimeout])
    | Except.ok conn =>
      (Except.ok (Conn.mk conn readTimeout writeTimeout),
       [SysEvent.dial network addr readTimeout]))

/-- NewListener of part_000: binds via net.Listen on the given network and
address and wraps the bound listener with the two timeouts. -/
def NewListener (env : NetEnv) (network addr : String)
    (readTimeout writeTimeout : Duration) :
    Except Err (Listener NetListener) × List SysEvent :=
  match env.listen network addr with
  | Except.error e => (Except.error e, [SysEvent.listen network addr])
  | Except.ok conn =>
    (Except.ok (Listener.mk conn readTimeout writeTimeout),
     [SysEvent.listen network addr])

/-- NewListenerTLS of part_000: fills NextProtos of a fresh local config,
loads the certificate pair (returning its error before any bind), then
binds on the given network and address, wraps with tls.NewListener and
then with Listener. -/
def NewListenerTLS (env : NetEnv) (network addr certFile keyFile : String)
    (readTimeout writeTimeout : Duration) :
    Except Err (Listener TLSListener) × List SysEvent :=
  let config : TLSConfig := TLSConfig.mk none []
  let config := if config.NextProtos = none
    then { config with NextProtos := some ["http/1.1"] } else config
  match env.loadX509KeyPair certFile keyFile with
  | Except.error e => (Except.error e, [SysEvent.load certFile keyFile])
  | Except.ok cert =>
    let config := { config with Certificates := [cert] }
    match env.listen network addr with
    | Except.error e =>
      (Except.error e, [SysEvent.load certFile keyFile, SysEvent.listen network addr])
    | Except.ok conn =>
      (Except.ok (Listener.mk (tlsNewListener conn config) readTimeout writeTimeout),
       [SysEvent.load certFile keyFile, SysEvent.listen network addr])

end httptimeout

/-- Claim C1: Conn.Read first sets the underlying read deadline to
now + ReadTimeout; if that fails it returns (0, that error) and never
invokes the underlying read; otherwise it returns the underlying read's
result verbatim.  Conn.Write behaves symmetrically with WriteTimeout and
the write deadline. -/
theorem read_write_set_deadline_then_delegate (c : Conn) (now : Time) (b : Bytes) :
    (match c.conn.setReadDeadlineErr (now + c.ReadTimeout) with
     | some e =>
       (Conn.Read c now b).1 = (0, some e)
       ∧ (Conn.Read c now b).2.2 = [NetEvent.setReadDeadline (now + c.ReadTimeout)]
     | none =>
       (Conn.Read c now b).1 = c.conn.readRes b
       ∧ (Conn.Read c now b).2.2
           = [NetEvent.setReadDeadline (now + c.ReadTimeout), NetEvent.read b]
       ∧ (Conn.Read c now b).2.1.conn.readDeadline = now + c.ReadTimeout)
    ∧ (match c.conn.setWriteDeadlineErr (now + c.WriteTimeout) with
     | some e =>
       (Conn.Write c now b).1 = (0, some e)
       ∧ (Conn.Write c now b).2.2 = [NetEvent.setWriteDeadline (now + c.WriteTimeout)]
     | none =>
       (Conn.Write c now b).1 = c.conn.writeRes b
       ∧ (Conn.Write c now b).2.2
           = [NetEvent.setWriteDeadline (now + c.WriteTimeout), NetEvent.write b]
       ∧ (Conn.Write c now b).2.1.conn.writeDeadline = now + c.WriteTimeout) := by
  constructor
  · cases h : c.conn.setReadDeadlineErr (now + c.ReadTimeout) <;>
      simp [Conn.Read, NetConn.SetReadDeadline, NetConn.Read, h]
  · cases h : c.conn.setWriteDeadlineErr (now + c.WriteTimeout) <;>
      simp [Conn.Write, NetConn.SetWriteDeadline, NetConn.Write, h]

/-- Claim C2: Listener.Accept calls the underlying Accept; on success it
returns a Conn wrapping exactly the accepted connection with the
listener's configured timeouts; on failure the error is propagated and no
connection is produced. -/
theorem accept_wraps_with_listener_timeouts (l : Listener NetListener) :
    (match (NetListener.Accept l.listener).1 with
     | Except.error e => (Listener.Accept l).1 = Except.error e
     | Except.ok c =>
       (Listener.Accept l).1 = Except.ok (Conn.mk c l.ReadTimeout l.WriteTimeout))
    ∧ (Listener.Accept l).2
        = Listener.mk (NetListener.Accept l.listener).2 l.ReadTimeout l.WriteTimeout := by
  cases h : (NetListener.Accept l.listener).1 <;>
    simp_all [Listener.Accept, NetListener.Accept]

/-- Claim C3: the transport built by timeout.NewTransport has a dial
function that performs a connect bounded by the given timeout and, on
success, wraps the dialed connection with that timeout as both read and
write timeout; on connect failure it returns the dial error and wraps no
connection. -/
theorem newTransport_dial_bounded_and_wraps (env : NetEnv) (a : String)
    (t : Duration) (network addr : String) :
    (((timeout.NewTransport env a t).Dial network addr).2
       = [SysEvent.dial network addr t])
    ∧ (match env.dialTimeout network addr t with
       | Except.error e =>
         ((timeout.NewTransport env a t).Dial network addr).1 = Except.error e
       | Except.ok nc =>
         ((timeout.NewTransport env a t).Dial network addr).1
           = Except.ok (Conn.mk nc t t)) := by
  cases h : env.dialTimeout network addr t <;>
    simp [timeout.NewTransport, h]

/-- Claim C4: in NewListenerTLS, a certificate-load failure is returned
before any socket is bound (the trace holds no listen event), and a bind
failure is returned with no listener object produced. -/
theorem newListenerTLS_error_before_bind (env : NetEnv)
    (network addr certFile keyFile : String) (rt wt : Duration) :
    match env.loadX509KeyPair certFile keyFile with
    | Except.error e =>
      httptimeout.NewListenerTLS env network addr certFile keyFile rt wt
        = (Except.error e, [SysEvent.load certFile keyFile])
      ∧ ∀ n a, SysEvent.listen n a
          ∉ (httptimeout.NewListenerTLS env network addr certFile keyFile rt wt).2
    | Except.ok _ =>
      match env.listen network addr with
      | Except.error e =>
        (httptimeout.NewListenerTLS env network addr certFile keyFile rt wt).1
          = Except.error e
      | Except.ok _ => True := by
  cases h : env.loadX509KeyPair certFile keyFile
  · simp [httptimeout.NewListenerTLS, h]
  · cases h2 : env.listen network addr <;>
      simp [httptimeout.NewListenerTLS, h, h2]

/-- Claim C5: NewListenerTLS fills the protocol-negotiation list of its
locally constructed TLS configuration: the config starts unset and the
listener it returns on success carries exactly the single-entry list
advertising http/1.1 (the construction is a pure function of its
arguments, so no shared or global TLS configuration state is mutated). -/
theorem newListenerTLS_nextProtos_default (env : NetEnv)
    (network addr certFile keyFile : String) (rt wt : Duration) :
    match (httptimeout.NewListenerTLS env network addr certFile keyFile rt wt).1 with
    | Except.error _ => True
    | Except.ok tl => tl.listener.config.NextProtos = some ["http/1.1"] := by
  cases h : env.loadX509KeyPair certFile keyFile
  · simp [httptimeout.NewListenerTLS, h]
  · cases h2 : env.listen network addr <;>
      simp [httptimeout.NewListenerTLS, tlsNewListener, h, h2]

/-- Claim C6: every Conn operation other than Read and Write (Close,
LocalAddr, RemoteAddr) returns exactly the result of the same operation on
the underlying connection and changes nothing beyond what that underlying
operation changes: the wrapper after Close differs from the original only
in the embedded connection, and keeps its timeouts. -/
theorem conn_passthrough_ops_delegate (c : Conn) :
    (Conn.Close c).1 = (NetConn.Close c.conn).1
    ∧ (Conn.Close c).2.2 = (NetConn.Close c.conn).2.2
    ∧ (Conn.Close c).2.1 = { c with conn := (NetConn.Close c.conn).2.1 }
    ∧ (Conn.Close c).2.1.ReadTimeout = c.ReadTimeout
    ∧ (Conn.Close c).2.1.WriteTimeout = c.WriteTimeout
    ∧ Conn.LocalAddr c = NetConn.LocalAddr c.conn
    ∧ Conn.RemoteAddr c = NetConn.RemoteAddr c.conn := by
  simp [Conn.Close, Conn.LocalAddr, Conn.RemoteAddr, NetConn.Close]

/-- Claim C7: the ReadTimeout and WriteTimeout fields of a Conn are
unchanged by Read, Write and Close, and those of a Listener are unchanged
by Accept: they are fixed at construction and never mutated. -/
theorem timeouts_immutable_after_construction (c : Conn) (now : Time)
    (b : Bytes) (l : Listener NetListener) :
    (Conn.Read c now b).2.1.ReadTimeout = c.ReadTimeout
    ∧ (Conn.Read c now b).2.1.WriteTimeout = c.WriteTimeout
    ∧ (Conn.Write c now b).2.1.ReadTimeout = c.ReadTimeout
    ∧ (Conn.Write c now b).2.1.WriteTimeout = c.WriteTimeout
    ∧ (Conn.Close c).2.1.ReadTimeout = c.ReadTimeout
    ∧ (Conn.Close c).2.1.WriteTimeout = c.WriteTimeout
    ∧ (Listener.Accept l).2.ReadTimeout = l.ReadTimeout
    ∧ (Listener.Accept l).2.WriteTimeout = l.WriteTimeout := by
  refine ⟨?_, ?_, ?_, ?_, ?_, ?_, ?_, ?_⟩
  all_goals first
  | (cases h : c.conn.setReadDeadlineErr (now + c.ReadTimeout) <;>
      simp [Conn.Read, NetConn.SetReadDeadline, NetConn.Read, h])
  | (cases h : c.conn.setWriteDeadlineErr (now + c.WriteTimeout) <;>
      simp [Conn.Write, NetConn.SetWriteDeadline, NetConn.Write, h])
  | simp [Conn.Close, NetConn.Close]
  | (cases h : (NetListener.Accept l.listener).1 <;>
      simp_all [Listener.Accept, NetListener.Accept])

/-- Claim C8: NewListener binds a stream listener on the given network and
address (the trace is exactly that listen call) and wraps it with the
given timeouts; on bind failure the bind error is returned and no listener
object is produced.  The timeout.go variant is the same construction with
the network fixed to "tcp". -/
theorem newListener_binds_and_wraps (env : NetEnv) (network addr : String)
    (rt wt : Duration) :
    ((httptimeout.NewListener env network addr rt wt).2
       = [SysEvent.listen network addr])
    ∧ (match env.listen network addr with
       | Except.error e =>
         (httptimeout.NewListener env network addr rt wt).1 = Except.error e
       | Except.ok nl =>
         (httptimeout.NewListener env network addr rt wt).1
           = Except.ok (Listener.mk nl rt wt))
    ∧ timeout.NewListener env addr rt wt = httptimeout.NewListener env "tcp" addr rt wt := by
  refine ⟨?_, ?_, ?_⟩
  · cases h : env.listen network addr <;> simp [httptimeout.NewListener, h]
  · cases h : env.listen network addr <;> simp [httptimeout.NewListener, h]
  · cases h : env.listen "tcp" addr <;>
      simp [timeout.NewListener, httptimeout.NewListener, h]

/-- Claim C9: the address argument of the transport constructors has no
effect on the result, because the dial function uses only the network and
address supplied at dial time: transports built from different addresses
and the same timeouts are equal. -/
theorem newTransport_addr_irrelevant (env : NetEnv) (a1 a2 : String)
    (t rt wt : Duration) :
    timeout.NewTransport env a1 t = timeout.NewTransport env a2 t
    ∧ httptimeout.NewTransport env a1 rt wt = httptimeout.NewTransport env a2 rt wt :=
  ⟨rfl, rfl⟩

/-- Claim C10: in the httptimeout variant with independent read and write
timeouts, the outbound connect is bounded by readTimeout specifically,
while the wrapped connection receives readTimeout for reads and
writeTimeout for writes. -/
theorem newTransport_connect_uses_readTimeout (env : NetEnv) (a : String)
    (rt wt : Duration) (network addr : String) :
    (((httptimeout.NewTransport env a rt wt).Dial network addr).2
       = [SysEvent.dial network addr rt])
    ∧ (match env.dialTimeout network addr rt with
       | Except.error e =>
         ((httptimeout.NewTransport env a rt wt).Dial network addr).1 = Except.error e
       | Except.ok nc =>
         ((httptimeout.NewTransport env a rt wt).Dial network addr).1
           = Except.ok (Conn.mk nc rt wt)) := by
  cases h : env.dialTimeout network addr rt <;>
    simp [httptimeout.NewTransport, h]
